import Mathlib

/-!
Shallow embedding of `matbal/mbplot.py` (material-balance plot engines).

Modelling conventions:
* Python floats are modelled as exact rationals `ℚ`; numpy arrays as `List ℚ`.
* Elementwise numpy arithmetic over equal-length arrays is modelled either by
  `List.map` / `List.zipWith` or by a map over `List.range n` with `List.getD`
  indexing (the engines assume equal-length input series; `getD _ 0` is the
  total-function rendering of that indexing).
* A Python statement that raises is modelled in the `Except String` monad; the
  string records the exception class raised by the source line.
* Rational division is total with `x / 0 = 0`; every claim about a quotient
  carries the nonzero-denominator hypothesis of its specification sentence.
-/

/-- Value that a Python local can hold inside the `calculate_undersaturated`
loop: a scalar, or a whole numpy array (the volatile branch of the loop builds
`F_` from the full input arrays, so an array value lands in the `F` list). -/
inductive PyVal where
  | num : ℚ → PyVal
  | arr : List ℚ → PyVal
deriving DecidableEq, Repr

/-- Embedding of the module-level `Efw`: formation expansion factor, vectorized
over the pressure series `p` with scalar reference pressure `pi`. -/
def Efw (cf cw swi : ℚ) (p : List ℚ) (pi : ℚ) : List ℚ :=
  p.map fun pk => ((cf + cw * swi) / (1 - swi)) * (pi - pk)

/-- Embedding of `condensate_belowdew`: below-dewpoint gas-condensate
parameters.  `Btg`, `Bto`, `F` are elementwise array expressions over the
equal-length input series; `Bto` is computed and discarded exactly as in the
source, and `Gi` is the literal 0 of the source.  Returns `(F, Eg)`. -/
def condensate_belowdew (Rs Rv : List ℚ) (Rsi Rvi : ℚ) (Bo Bg : List ℚ) (Bgi : ℚ)
    (Np Gp : List ℚ) : List ℚ × List ℚ :=
  let n := Rs.length
  let Btg := (List.range n).map fun i =>
    ((Bg.getD i 0 * (1 - (Rs.getD i 0 * Rvi))) + (Bo.getD i 0 * (Rvi - Rv.getD i 0)))
      / (1 - (Rv.getD i 0 * Rs.getD i 0))
  let Bto := (List.range n).map fun i =>
    ((Bo.getD i 0 * (1 - (Rv.getD i 0 * Rsi))) + (Bg.getD i 0 * (Rsi - Rs.getD i 0)))
      / (1 - (Rv.getD i 0 * Rs.getD i 0))
  let Gi : ℚ := 0
  let F := (List.range n).map fun i =>
    (Np.getD i 0 * ((Bo.getD i 0 - (Rs.getD i 0 * Bg.getD i 0)) / (1 - (Rv.getD i 0 * Rs.getD i 0))))
      + ((Gp.getD i 0 - Gi) * ((Bg.getD i 0 - (Rv.getD i 0 * Bo.getD i 0)) / (1 - (Rv.getD i 0 * Rs.getD i 0))))
  let Eg := Btg.map fun b => b - Bgi
  (F, Eg)

/-- Embedding of `condensate_abovedew`: above-dewpoint gas-condensate
parameters, `Eg = Bg - Bgi` (scalar broadcast) and `F = Bg * (Gp - Gpi)`
(elementwise product).  Returns `(F, Eg)`. -/
def condensate_abovedew (Bg : List ℚ) (Bgi : ℚ) (Gp : List ℚ) (Gpi : ℚ) : List ℚ × List ℚ :=
  let Eg := Bg.map fun b => b - Bgi
  let F := List.zipWith (fun b g => b * (g - Gpi)) Bg Gp
  (F, Eg)

/-- Head of a series, raising IndexError on an empty array as Python indexing
`p[0]` does. -/
def headOr (l : List ℚ) : Except String ℚ :=
  match l with
  | [] => Except.error "IndexError: index 0 is out of bounds"
  | x :: _ => Except.ok x

/-- Whole-array expression assigned to `F_` in the volatile branch of the
`oilfvf = None` loop of `calculate_undersaturated`: it uses the full input
arrays `Np, Gp, Bo, Bg, Rs, Rv`, not the current sample. -/
def undersatVolatileFNone (Np Gp Bo Bg Rs Rv : List ℚ) : List ℚ :=
  (List.range Np.length).map fun j =>
    (Np.getD j 0 * ((Bo.getD j 0 - (Rs.getD j 0 * Bg.getD j 0)) / (1 - (Rv.getD j 0 * Rs.getD j 0))))
      + (Gp.getD j 0 * ((Bg.getD j 0 - (Rv.getD j 0 * Bo.getD j 0)) / (1 - (Rv.getD j 0 * Rs.getD j 0))))

/-- Whole-array expression assigned to `F_` in the volatile branch of the
`oilfvf = total` loop: the scalar `Bo_` reconstructed from `Bto_` is broadcast
against the full arrays. -/
def undersatVolatileFTotal (Np Gp Bg Rs Rv : List ℚ) (Bo0 : ℚ) : List ℚ :=
  (List.range Np.length).map fun j =>
    (Np.getD j 0 * ((Bo0 - (Rs.getD j 0 * Bg.getD j 0)) / (1 - (Rv.getD j 0 * Rs.getD j 0))))
      + (Gp.getD j 0 * ((Bg.getD j 0 - (Rv.getD j 0 * Bo0)) / (1 - (Rv.getD j 0 * Rs.getD j 0))))

/-- Loop state of `calculate_undersaturated`: the (possibly still unbound)
locals `Bto_` and `F_`, and the accumulating lists `Bto` and `F`. -/
def UndersatState : Type :=
  Option ℚ × Option PyVal × List ℚ × List PyVal

/-- One iteration of the `oilfvf = None` loop of `calculate_undersaturated`.
When `Rv[i] == 0` the source assigns `Bto_` and then evaluates
`F_ = Np[i](Bo[i] - Rs[i] * Bg[i]) + (Gp[i] * Bg[i])`, which applies the number
`Np[i]` as a function and raises TypeError.  Otherwise the source first appends
the current `Bto_`, `F_` (NameError when still unbound), then, since
`Rv[i] != 0`, reassigns them with the volatile formulas and appends again. -/
def undersatStepNone (Bg Bo Np Gp Rs Rv : List ℚ) (Rsi : ℚ)
    (st : UndersatState) (i : ℕ) : Except String UndersatState :=
  let (vBto, vF, accBto, accF) := st
  if Rv.getD i 0 = 0 then
    Except.error "TypeError: float object is not callable"
  else
    match vBto, vF with
    | some b0, some f0 =>
      let accBto1 := accBto ++ [b0]
      let accF1 := accF ++ [f0]
      let b1 := ((Bo.getD i 0 * (1 - (Rv.getD i 0 * Rsi))) + (Bg.getD i 0 * (Rsi - Rs.getD i 0)))
        / (1 - (Rv.getD i 0 * Rs.getD i 0))
      let f1 := PyVal.arr (undersatVolatileFNone Np Gp Bo Bg Rs Rv)
      Except.ok (some b1, some f1, accBto1 ++ [b1], accF1 ++ [f1])
    | _, _ => Except.error "NameError: name Bto_ is not defined"

/-- One iteration of the `oilfvf = total` loop of `calculate_undersaturated`.
Same shape as the `None` loop: the `Rv[i] == 0` branch raises TypeError at
`F_ = Np[i](Bto_ - Rsi * Bg[i]) + (Gp[i] * Bg[i])`; the volatile branch first
appends the stale locals, then sets `Bto_ = Bo[i]`, reconstructs a scalar
`Bo_`, builds the whole-array `F_` and appends again. -/
def undersatStepTotal (Bg Bo Np Gp Rs Rv : List ℚ) (Rsi : ℚ)
    (st : UndersatState) (i : ℕ) : Except String UndersatState :=
  let (vBto, vF, accBto, accF) := st
  if Rv.getD i 0 = 0 then
    Except.error "TypeError: float object is not callable"
  else
    match vBto, vF with
    | some b0, some f0 =>
      let accBto1 := accBto ++ [b0]
      let accF1 := accF ++ [f0]
      let b1 := Bo.getD i 0
      let bo1 := ((b1 * (1 - (Rv.getD i 0 * Rs.getD i 0))) - (Bg.getD i 0 * (Rsi - Rs.getD i 0)))
        / (1 - (Rv.getD i 0 * Rs.getD i 0))
      let f1 := PyVal.arr (undersatVolatileFTotal Np Gp Bg Rs Rv bo1)
      Except.ok (some b1, some f1, accBto1 ++ [b1], accF1 ++ [f1])
    | _, _ => Except.error "NameError: name Bto_ is not defined"

/-- Embedding of `calculate_undersaturated`.  Reference scalars `pi`, `Boi`,
`Rsi` come from index 0 (IndexError on empty input).  The per-sample loop runs
for `oilfvf = total` or `oilfvf = None`; any other value leaves `Bto` unbound
and the later `np.array(Bto)` raises NameError.  After the loop,
`Efw` and `Eo = Bto - Boi` are vectorized, and `(Bto, Eo, Efw, F)` returns. -/
def calculate_undersaturated (p Bg Bo Np Gp : List ℚ) (cf cw swi : ℚ) (Rs Rv : List ℚ)
    (oilfvf : Option String) : Except String (List ℚ × List ℚ × List ℚ × List PyVal) := do
  let pi ← headOr p
  let Boi ← headOr Bo
  let Rsi ← headOr Rs
  let loopOut ←
    if oilfvf = some "total" then
      (List.range p.length).foldlM (undersatStepTotal Bg Bo Np Gp Rs Rv Rsi)
        ((none, none, [], []) : UndersatState)
    else if oilfvf = none then
      (List.range p.length).foldlM (undersatStepNone Bg Bo Np Gp Rs Rv Rsi)
        ((none, none, [], []) : UndersatState)
    else
      Except.error "NameError: name Bto is not defined"
  let (_, _, Bto, F) := loopOut
  let EfwArr := p.map fun pk => ((cf + (cw * swi)) / (1 - swi)) * (pi - pk)
  let Eo := Bto.map fun b => b - Boi
  return (Bto, Eo, EfwArr, F)

/-- Gathering of a sub-series by a list of indices, preserving the order of the
index list; embeds the `for i in id_...: xs.append(X[i])` loops of the
condensate plot methods. -/
def gather (xs : List ℚ) (ids : List ℕ) : List ℚ :=
  ids.map fun i => xs.getD i 0

namespace condensate

/-- Embedding of `np.where(p > Pdp)[0]`: indices of the samples strictly above
dewpoint pressure, in increasing index order. -/
def id_above (Pdp : ℚ) (p : List ℚ) : List ℕ :=
  (List.range p.length).filter fun i => decide (Pdp < p.getD i 0)

/-- Embedding of `np.where(p <= Pdp)[0]`: indices of the samples at or below
dewpoint pressure, in increasing index order. -/
def id_below (Pdp : ℚ) (p : List ℚ) : List ℕ :=
  (List.range p.length).filter fun i => decide (p.getD i 0 ≤ Pdp)

/-- Merge step shared by the tail of `condensate.plot1`: run the below-dewpoint
computation on the gathered below subset with the resolved `Rsi0`, then append
the above-segment results and the below-segment results. -/
def plot1_merge (Rsi0 Rvi Bgi : ℚ) (Rs Rv Bo Bg Np Gp : List ℚ) (idb : List ℕ)
    (FEa : List ℚ × List ℚ) : List ℚ × List ℚ :=
  let FEb := condensate_belowdew (gather Rs idb) (gather Rv idb) Rsi0 Rvi
    (gather Bo idb) (gather Bg idb) Bgi (gather Np idb) (gather Gp idb)
  (FEa.1 ++ FEb.1, FEa.2 ++ FEb.2)

/-- Embedding of `condensate.plot1` (computational core; the matplotlib calls
are the excluded presentation boundary).  It computes the above-dewpoint
segment, resolves `Rsi` (defaulting to `1 / Rvi`, which raises
ZeroDivisionError when `Rvi` is 0 and no `Rsi` was supplied), computes the
below-dewpoint segment, and returns the concatenation above-then-below. -/
def plot1 (Pdp : ℚ) (p Bg : List ℚ) (Bgi : ℚ) (Bo Np Gp : List ℚ) (Gpi : ℚ)
    (Rv : List ℚ) (Rvi : ℚ) (Rs : List ℚ) (Rsi : Option ℚ) :
    Except String (List ℚ × List ℚ) :=
  let ida := id_above Pdp p
  let FEa := condensate_abovedew (gather Bg ida) Bgi (gather Gp ida) Gpi
  let idb := id_below Pdp p
  match Rsi with
  | none =>
    if Rvi = 0 then Except.error "ZeroDivisionError: division by zero"
    else Except.ok (plot1_merge (1 / Rvi) Rvi Bgi Rs Rv Bo Bg Np Gp idb FEa)
  | some r => Except.ok (plot1_merge r Rvi Bgi Rs Rv Bo Bg Np Gp idb FEa)

end condensate

namespace drygas

/-- Embedding of `drygas.plot1`: the method computes `Eg = Bg - Bgi` and
`F = Bg * (Gp - Gpi)` and hands `(Eg, F)` to the plotting boundary (the Python
method has no return statement); the embedding exposes that computed pair. -/
def plot1 (Bg : List ℚ) (Bgi : ℚ) (Gp : List ℚ) (Gpi : ℚ) : List ℚ × List ℚ :=
  let Eg := Bg.map fun b => b - Bgi
  let F := List.zipWith (fun b g => b * (g - Gpi)) Bg Gp
  (Eg, F)

/-- Embedding of `drygas.plot7`.  In the source the first statement is
`Efw = Efw(cf, cw, swi, p, pi)`: the assignment makes `Efw` a local name for
the whole body, so the right-hand side reads the local before it is bound and
raises UnboundLocalError; no pair is ever returned. -/
def plot7 (Gp p : List ℚ) (pi : ℚ) (z : List ℚ) (cf cw swi : ℚ) :
    Except String (List ℚ × List ℚ) := do
  let EfwLocal : Option (List ℚ) := none
  let EfwVal ← match EfwLocal with
    | none => Except.error "UnboundLocalError: local variable Efw referenced before assignment"
    | some v => Except.ok v
  let p_z_Efw := List.zipWith (fun q e => q * e) (List.zipWith (fun a b => a / b) p z) EfwVal
  return (Gp, p_z_Efw)

end drygas

/-- Embedding of `regression`: the means, residuals and `slope` are computed,
and then the line `intercept = mean_y - B1 * mean_x` reads the name `B1`,
which is defined nowhere, so the call raises NameError before returning. -/
def regression (x y : List ℚ) : Except String (ℚ × ℚ) :=
  let mean_x := x.sum / (x.length : ℚ)
  let mean_y := y.sum / (y.length : ℚ)
  let err_x := x.map fun a => a - mean_x
  let err_y := y.map fun a => a - mean_y
  let err_mult := List.zipWith (fun a b => a * b) err_x err_y
  let numerator := err_mult.sum
  let err_x_squared := err_x.map fun a => a ^ 2
  let denominator := err_x_squared.sum
  let slope := numerator / denominator
  Except.error "NameError: name B1 is not defined"

/-- Auxiliary: `getD` of a map over an index range, at an in-range index. -/
theorem getD_map_range (n : ℕ) (f : ℕ → ℚ) (i : ℕ) (h : i < n) :
    ((List.range n).map f).getD i 0 = f i := by
  simp [List.getD_eq_getElem?_getD, List.getElem?_range h]

/-- Auxiliary: `getD` of a mapped list, at an in-range index. -/
theorem getD_map (f : ℚ → ℚ) (l : List ℚ) (i : ℕ) (h : i < l.length) :
    (l.map f).getD i 0 = f (l.getD i 0) := by
  simp [List.getD_eq_getElem?_getD, List.getElem?_eq_getElem h]

/-- Auxiliary: `getD` of a zipWith of two lists, at an index in range of both. -/
theorem getD_zipWith (f : ℚ → ℚ → ℚ) (xs ys : List ℚ) (i : ℕ)
    (hx : i < xs.length) (hy : i < ys.length) :
    (List.zipWith f xs ys).getD i 0 = f (xs.getD i 0) (ys.getD i 0) := by
  simp [List.getD_eq_getElem?_getD, List.getElem?_zipWith,
    List.getElem?_eq_getElem hx, List.getElem?_eq_getElem hy]

/-- Auxiliary: a filter by a predicate and a filter by its boolean negation
split the length of a list. -/
theorem length_filter_partition (l : List ℕ) (f g : ℕ → Bool)
    (h : ∀ a, g a = !(f a)) :
    (l.filter f).length + (l.filter g).length = l.length := by
  induction l with
  | nil => simp
  | cons a t ih =>
    cases hfa : f a <;> simp [List.filter_cons, hfa, h a] <;> omega

/-- Auxiliary: the above-dewpoint and below-dewpoint index sets of
`condensate.plot1` partition the sample indices. -/
theorem id_above_below_partition (Pdp : ℚ) (p : List ℚ) :
    (condensate.id_above Pdp p).length + (condensate.id_below Pdp p).length = p.length := by
  have h : ∀ a : ℕ, decide (p.getD a 0 ≤ Pdp) = !decide (Pdp < p.getD a 0) := by
    intro a
    rw [decide_eq_decide.mpr not_lt.symm, decide_not]
  have := length_filter_partition (List.range p.length)
    (fun i => decide (Pdp < p.getD i 0)) (fun i => decide (p.getD i 0 ≤ Pdp)) h
  simpa [condensate.id_above, condensate.id_below] using this

/-- Expected merged output of `condensate.plot1`, written from the claim C4
wording: run the above-dewpoint formulas on the sub-series gathered at
`id_above` and the below-dewpoint formulas on the sub-series gathered at
`id_below` (each gather preserves increasing original index order), then
concatenate above-segment-then-below-segment. -/
def plot1_concat_spec (Pdp : ℚ) (p Bg Bo Np Gp Rv Rs : List ℚ) (Bgi Gpi Rvi r : ℚ) :
    List ℚ × List ℚ :=
  let ida := condensate.id_above Pdp p
  let idb := condensate.id_below Pdp p
  let FEa := condensate_abovedew (gather Bg ida) Bgi (gather Gp ida) Gpi
  let FEb := condensate_belowdew (gather Rs idb) (gather Rv idb) r Rvi
    (gather Bo idb) (gather Bg idb) Bgi (gather Np idb) (gather Gp idb)
  (FEa.1 ++ FEb.1, FEa.2 ++ FEb.2)

/-- C4: for every input series of equal length N and every dewpoint partition,
the gas-condensate engine returns exactly the above-dewpoint segment results
followed by the below-dewpoint segment results, each segment computed from the
sub-series gathered in original index order, and both merged outputs have
length N. -/
theorem plot1_merge_above_then_below (Pdp : ℚ) (p Bg Bo Np Gp Rv Rs : List ℚ)
    (Bgi Gpi Rvi r : ℚ)
    (hBg : Bg.length = p.length) (hBo : Bo.length = p.length)
    (hNp : Np.length = p.length) (hGp : Gp.length = p.length)
    (hRv : Rv.length = p.length) (hRs : Rs.length = p.length) :
    condensate.plot1 Pdp p Bg Bgi Bo Np Gp Gpi Rv Rvi Rs (some r)
      = Except.ok (plot1_concat_spec Pdp p Bg Bo Np Gp Rv Rs Bgi Gpi Rvi r)
    ∧ (plot1_concat_spec Pdp p Bg Bo Np Gp Rv Rs Bgi Gpi Rvi r).1.length = p.length
    ∧ (plot1_concat_spec Pdp p Bg Bo Np Gp Rv Rs Bgi Gpi Rvi r).2.length = p.length := by
  have hpart := id_above_below_partition Pdp p
  refine ⟨rfl, ?_, ?_⟩
  · simp only [plot1_concat_spec, condensate_abovedew, condensate_belowdew, gather,
      List.length_append, List.length_zipWith, List.length_map, List.length_range]
    omega
  · simp only [plot1_concat_spec, condensate_abovedew, condensate_belowdew, gather,
      List.length_append, List.length_zipWith, List.length_map, List.length_range]
    omega

/-- Witness for C4 at a concrete two-sample input with one sample above and one
sample at the dewpoint. -/
theorem plot1_merge_above_then_below_witness :
    condensate.plot1 50 [100, 50] [2, 3] 1 [4, 5] [6, 7] [8, 9] 2 [0, 1/10] (1/10) [11, 12] (some 11)
      = Except.ok (plot1_concat_spec 50 [100, 50] [2, 3] [4, 5] [6, 7] [8, 9] [0, 1/10] [11, 12] 1 2 (1/10) 11)
    ∧ (plot1_concat_spec 50 [100, 50] [2, 3] [4, 5] [6, 7] [8, 9] [0, 1/10] [11, 12] 1 2 (1/10) 11).1.length = 2
    ∧ (plot1_concat_spec 50 [100, 50] [2, 3] [4, 5] [6, 7] [8, 9] [0, 1/10] [11, 12] 1 2 (1/10) 11).2.length = 2 :=
  plot1_merge_above_then_below 50 [100, 50] [2, 3] [4, 5] [6, 7] [8, 9] [0, 1/10] [11, 12]
    1 2 (1/10) 11 rfl rfl rfl rfl rfl rfl

/-- C5: every sample with pressure exactly at the dewpoint is routed to the
below-dewpoint branch and never to the above-dewpoint branch; the partition is
above = indices with p[i] > Pdp, below = indices with p[i] <= Pdp. -/
theorem plot1_dewpoint_boundary_below (Pdp : ℚ) (p : List ℚ) (i : ℕ) (h : i < p.length) :
    (i ∈ condensate.id_above Pdp p ↔ Pdp < p.getD i 0)
    ∧ (i ∈ condensate.id_below Pdp p ↔ p.getD i 0 ≤ Pdp)
    ∧ (p.getD i 0 = Pdp → i ∈ condensate.id_below Pdp p ∧ i ∉ condensate.id_above Pdp p) := by
  have ha : i ∈ condensate.id_above Pdp p ↔ Pdp < p.getD i 0 := by
    simp [condensate.id_above, List.mem_filter, List.mem_range, h,
      List.getD_eq_getElem?_getD, List.getElem?_eq_getElem h]
  have hb : i ∈ condensate.id_below Pdp p ↔ p.getD i 0 ≤ Pdp := by
    simp [condensate.id_below, List.mem_filter, List.mem_range, h,
      List.getD_eq_getElem?_getD, List.getElem?_eq_getElem h]
  refine ⟨ha, hb, fun he => ⟨hb.mpr he.le, fun hc => ?_⟩⟩
  exact absurd (ha.mp hc) (by rw [he]; exact lt_irrefl Pdp)

/-- Witness for C5: in the series [100, 50] with dewpoint 50, index 1 sits
exactly at the dewpoint and lands in the below set, not the above set. -/
theorem plot1_dewpoint_boundary_below_witness :
    1 ∈ condensate.id_below 50 [100, 50] ∧ 1 ∉ condensate.id_above 50 [100, 50] :=
  (plot1_dewpoint_boundary_below 50 [100, 50] 1 (by decide)).2.2 (by decide)

/-- C6: for every equal-length input with nonzero denominator at index i,
condensate_belowdew returns F[i] and Eg[i] = Btg[i] - Bgi exactly as the
below-dewpoint formulas state, with Gi fixed at 0. -/
theorem condensate_belowdew_formulas (Rs Rv Bo Bg Np Gp : List ℚ) (Rsi Rvi Bgi : ℚ)
    (hRv : Rv.length = Rs.length) (hBo : Bo.length = Rs.length)
    (hBg : Bg.length = Rs.length) (hNp : Np.length = Rs.length)
    (hGp : Gp.length = Rs.length) (i : ℕ) (hi : i < Rs.length)
    (hden : 1 - Rv.getD i 0 * Rs.getD i 0 ≠ 0) :
    (condensate_belowdew Rs Rv Rsi Rvi Bo Bg Bgi Np Gp).1.getD i 0
      = Np.getD i 0 * (Bo.getD i 0 - Rs.getD i 0 * Bg.getD i 0) / (1 - Rv.getD i 0 * Rs.getD i 0)
        + Gp.getD i 0 * (Bg.getD i 0 - Rv.getD i 0 * Bo.getD i 0) / (1 - Rv.getD i 0 * Rs.getD i 0)
    ∧ (condensate_belowdew Rs Rv Rsi Rvi Bo Bg Bgi Np Gp).2.getD i 0
      = (Bg.getD i 0 * (1 - Rs.getD i 0 * Rvi) + Bo.getD i 0 * (Rvi - Rv.getD i 0))
          / (1 - Rv.getD i 0 * Rs.getD i 0) - Bgi := by
  constructor
  · simp only [condensate_belowdew]
    rw [getD_map_range _ _ _ hi]
    ring
  · simp only [condensate_belowdew]
    rw [getD_map _ _ _ (by simpa using hi), getD_map_range _ _ _ hi]

/-- Witness for C6 at a one-sample input with denominator 1/2. -/
theorem condensate_belowdew_formulas_witness :
    (condensate_belowdew [2] [1/4] 13 17 [3] [5] 19 [7] [11]).1.getD 0 0
      = 7 * (3 - 2 * 5) / (1 - (1/4) * 2) + 11 * (5 - (1/4) * 3) / (1 - (1/4) * 2)
    ∧ (condensate_belowdew [2] [1/4] 13 17 [3] [5] 19 [7] [11]).2.getD 0 0
      = (5 * (1 - 2 * 17) + 3 * (17 - (1/4))) / (1 - (1/4) * 2) - 19 :=
  condensate_belowdew_formulas [2] [1/4] [3] [5] [7] [11] 13 17 19
    rfl rfl rfl rfl rfl 0 (by decide) (by simp only [List.getD_cons_zero]; norm_num)

/-- C7: when Rsi is not supplied, the gas-condensate engine either fails with
the division-by-zero error (Rvi = 0) or behaves exactly as if Rsi = 1/Rvi had
been supplied for the below-dewpoint computation. -/
theorem plot1_rsi_default_inverse_rvi (Pdp : ℚ) (p Bg : List ℚ) (Bgi : ℚ)
    (Bo Np Gp : List ℚ) (Gpi : ℚ) (Rv : List ℚ) (Rvi : ℚ) (Rs : List ℚ) :
    condensate.plot1 Pdp p Bg Bgi Bo Np Gp Gpi Rv Rvi Rs none
      = if Rvi = 0 then Except.error "ZeroDivisionError: division by zero"
        else condensate.plot1 Pdp p Bg Bgi Bo Np Gp Gpi Rv Rvi Rs (some (1 / Rvi)) := by
  by_cases h : Rvi = 0 <;> simp [condensate.plot1, h]

/-- C8: Efw computes ((cf + cw*swi)/(1 - swi)) * (pi - p[i]) at every index for
swi in [0,1), and the concrete example of the spec evaluates exactly. -/
theorem Efw_formula_and_example (cf cw swi pivar : ℚ) (p : List ℚ)
    (h0 : 0 ≤ swi) (h1 : swi < 1) :
    (∀ i, i < p.length →
      (Efw cf cw swi p pivar).getD i 0 = ((cf + cw * swi) / (1 - swi)) * (pivar - p.getD i 0))
    ∧ Efw (3/1000000) (4/1000000) (1/4) [4000, 3500] 4000
        = [0, (3/1000000 + 4/1000000 * (1/4)) / (3/4) * 500] := by
  constructor
  · intro i hi
    simp only [Efw]
    exact getD_map _ _ _ hi
  · simp only [Efw, List.map_cons, List.map_nil]
    norm_num

/-- Witness for C8 at the spec example input. -/
theorem Efw_formula_and_example_witness :
    (Efw (3/1000000) (4/1000000) (1/4) [4000, 3500] 4000).getD 1 0
      = ((3/1000000 + 4/1000000 * (1/4)) / (1 - 1/4)) * (4000 - ([4000, 3500] : List ℚ).getD 1 0) :=
  (Efw_formula_and_example (3/1000000) (4/1000000) (1/4) 4000 [4000, 3500]
    (by norm_num) (by norm_num)).1 1 (by decide)

/-- C9: condensate_abovedew and the dry-gas plot1 compute Eg[i] = Bg[i] - Bgi
and F[i] = Bg[i]*(Gp[i] - Gpi) at every index, in closed form. -/
theorem abovedew_drygas_closed_form (Bg Gp : List ℚ) (Bgi Gpi : ℚ) (i : ℕ)
    (hi : i < Bg.length) (hlen : Gp.length = Bg.length) :
    (condensate_abovedew Bg Bgi Gp Gpi).2.getD i 0 = Bg.getD i 0 - Bgi
    ∧ (condensate_abovedew Bg Bgi Gp Gpi).1.getD i 0 = Bg.getD i 0 * (Gp.getD i 0 - Gpi)
    ∧ (drygas.plot1 Bg Bgi Gp Gpi).1.getD i 0 = Bg.getD i 0 - Bgi
    ∧ (drygas.plot1 Bg Bgi Gp Gpi).2.getD i 0 = Bg.getD i 0 * (Gp.getD i 0 - Gpi) := by
  have hi2 : i < Gp.length := by omega
  refine ⟨?_, ?_, ?_, ?_⟩
  · simp only [condensate_abovedew]
    exact getD_map _ _ _ hi
  · simp only [condensate_abovedew]
    exact getD_zipWith _ _ _ _ hi hi2
  · simp only [drygas.plot1]
    exact getD_map _ _ _ hi
  · simp only [drygas.plot1]
    exact getD_zipWith _ _ _ _ hi hi2

/-- Witness for C9 at a concrete two-sample input, index 1. -/
theorem abovedew_drygas_closed_form_witness :
    (condensate_abovedew [2, 3] 1 [5, 7] 4).2.getD 1 0 = 3 - 1
    ∧ (condensate_abovedew [2, 3] 1 [5, 7] 4).1.getD 1 0 = 3 * (7 - 4)
    ∧ (drygas.plot1 [2, 3] 1 [5, 7] 4).1.getD 1 0 = 3 - 1
    ∧ (drygas.plot1 [2, 3] 1 [5, 7] 4).2.getD 1 0 = 3 * (7 - 4) :=
  abovedew_drygas_closed_form [2, 3] [5, 7] 1 4 1 (by decide) rfl

/-- C1 (code bug): with oilfvf unset, the engine does not compute the claimed
per-sample Bto and F.  On a non-volatile sample the source evaluates
`Np[i](Bo[i] - Rs[i]*Bg[i])`, applying the number `Np[i]` as a function, and
raises TypeError; on a volatile first sample the append of the still-unbound
`Bto_` raises NameError.  Both one-sample inputs below exercise this. -/
theorem undersat_nonvolatile_call_error :
    calculate_undersaturated [3000] [1/1000] [6/5] [1000] [500000]
        (3/1000000) (4/1000000) (1/4) [600] [0] none
      = Except.error "TypeError: float object is not callable"
    ∧ calculate_undersaturated [3000] [1/1000] [6/5] [1000] [500000]
        (3/1000000) (4/1000000) (1/4) [600] [2] none
      = Except.error "NameError: name Bto_ is not defined" :=
  ⟨rfl, rfl⟩

/-- C2 (code bug): the engine never returns length-N output arrays; every
nonempty input raises (NameError on a volatile first sample, TypeError on a
non-volatile sample) in both oilfvf modes, so no arrays are returned at all. -/
theorem undersat_outputs_not_length_n :
    calculate_undersaturated [3000, 2900] [1/1000, 1/1000] [6/5, 6/5] [0, 100] [0, 1000]
        (3/1000000) (4/1000000) (1/4) [600, 580] [2, 2] none
      = Except.error "NameError: name Bto_ is not defined"
    ∧ calculate_undersaturated [3000] [1/1000] [6/5] [0] [0]
        (3/1000000) (4/1000000) (1/4) [600] [0] (some "total")
      = Except.error "TypeError: float object is not callable" :=
  ⟨rfl, rfl⟩

/-- C3 (code bug): the regression utility computes the residuals and the local
`slope`, but the intercept line reads the undefined name `B1` and raises
NameError, so the perfectly linear example never returns slope 2, intercept 3. -/
theorem regression_nameerror_b1 :
    regression [0, 1, 2, 3, 4] [3, 5, 7, 9, 11]
      = Except.error "NameError: name B1 is not defined" := rfl

/-- C10 (code bug): drygas.plot7 never returns the pair (Gp, p_z_Efw); its
first statement rebinds the name Efw locally and reads it before assignment,
raising UnboundLocalError on every call. -/
theorem drygas_plot7_unboundlocal :
    drygas.plot7 [1] [4000] 4000 [1] (3/1000000) (4/1000000) (1/4)
      = Except.error "UnboundLocalError: local variable Efw referenced before assignment" := rfl
